import Mathlib

/-!
Verification development for the soundcork repository.

This file shallowly embeds the parts of the source relevant to the frozen
claims:

* `src/soundcork/model.py`    — the data model (`ConfiguredSource`,
  `ContentItem`, `Preset`, `Recent`);
* `src/soundcork/marge.py`    — the protocol codec (`update_preset`,
  `add_recent`, `content_item_source_xml`, `strip_element_text`);
* `src/soundcork/datastore.py` — the file-backed store (`save_presets`,
  `get_presets`, `save_recents`, `get_recents`, `get_configured_sources`,
  path computation);
* `src/soundcork/proxy.py`    — the gateway dispatcher (`CircuitBreaker`,
  `_forward_with_fallback`, `HOP_BY_HOP`, header filtering).

Python exceptions are modelled with an explicit error type (`Err`): an
`HTTPException(status, detail)` raised by the code becomes `Err.http`, and
unhandled Python exceptions (`IndexError`, `AttributeError`, `ValueError`,
`FileNotFoundError`) become `Err.py`.  Machine floats for `time.monotonic`
timestamps are modelled as integers, which is faithful for the comparisons
the code performs.  Parsing of ISO 8601 date strings
(`datetime.fromisoformat`) is abstracted by a function parameter, since no
claim depends on the concrete parse.
-/

deriving instance DecidableEq for Except

/-- Unhandled Python exception kinds that the embedded code can raise. -/
inductive PyError where
  | indexError
  | attributeError
  | valueError
  | fileNotFoundError
deriving Repr, DecidableEq

/-- Errors: a structured `fastapi.HTTPException` (status code and detail
string) or an unhandled Python exception. -/
inductive Err where
  | http (status : Nat) (detail : String)
  | py (e : PyError)
deriving Repr, DecidableEq

/-- Python truthiness of an `Optional[str]`: `None` and `""` are falsy. -/
def truthy_opt : Option String → Bool
  | none => false
  | some s => s != ""

/-- Python equality `o == s` between an `Optional[str]` and a `str`:
`None == s` is `False`, `some t == s` iff `t = s`.  (Python `==` between a
string and an optional string is symmetric, so this helper is used for both
operand orders.) -/
def pyEqOptStr : Option String → String → Bool
  | some t, s => t == s
  | none, _ => false

/-- Python `f"{o}"` rendering of an `Optional[str]`: `None` prints as
`"None"`. -/
def pyStr : Option String → String
  | some s => s
  | none => "None"

/-- Value of a non-empty all-digit character sequence, `none` otherwise. -/
def digits_val : List Char → Option Nat
  | [] => none
  | ds => if ds.all Char.isDigit
      then some (ds.foldl (fun acc c => acc * 10 + (c.toNat - 48)) 0)
      else none

/-- Decimal integer parse with optional sign (the core of Python `int(s)`;
the surrounding-whitespace tolerance of `int()` is irrelevant to the ids
the code writes, which are `str(int)` values). -/
def str_to_int (s : String) : Option Int :=
  match s.data with
  | '-' :: ds => (digits_val ds).map (fun n => -(n : Int))
  | '+' :: ds => (digits_val ds).map (fun n => (n : Int))
  | ds => (digits_val ds).map (fun n => (n : Int))

/-- Python `str.strip()`: drop whitespace from both ends. -/
def str_strip (s : String) : String :=
  String.mk (((s.data.dropWhile Char.isWhitespace).reverse.dropWhile
    Char.isWhitespace).reverse)

/-- Python `int(s)` on a string: `ValueError` when it does not parse. -/
def pyInt (s : String) : Except Err Int :=
  match str_to_int s with
  | some n => Except.ok n
  | none => Except.error (Err.py PyError.valueError)

/-- Python list assignment `l[i] = x` with negative indexing:
`IndexError` when the (normalised) index is out of range. -/
def py_list_set {α : Type} (l : List α) (i : Int) (x : α) : Except Err (List α) :=
  let j := if i < 0 then i + l.length else i
  if 0 ≤ j ∧ j < (l.length : Int) then Except.ok (l.set j.toNat x)
  else Except.error (Err.py PyError.indexError)

/-! ### Data model (`src/soundcork/model.py`) -/

/-- `model.ConfiguredSource`. -/
structure ConfiguredSource where
  display_name : String
  id : String
  secret : String
  secret_type : String
  source_key_type : String
  source_key_account : String
deriving Repr, DecidableEq

/-- `model.ContentItem` (pydantic base class of `Preset` and `Recent`).
`Optional[str]` fields are `Option String`. -/
structure ContentItem where
  id : String
  name : String
  source : Option String
  type : String
  location : String
  source_account : Option String
  source_id : Option String
  is_presetable : Option String
deriving Repr, DecidableEq

/-- `model.Preset`, extending `ContentItem`. -/
structure Preset extends ContentItem where
  container_art : String
  created_on : String
  updated_on : String
deriving Repr, DecidableEq

/-- `model.Recent`, extending `ContentItem`. -/
structure Recent extends ContentItem where
  device_id : String
  utc_time : String
  container_art : Option String
deriving Repr, DecidableEq

/-! ### Inbound XML (`xml.etree.ElementTree` view used by marge.py)

`ET.Element.find(tag)` returns an optional element; `elem.text` is an
optional string.  The inbound documents of `update_preset` / `add_recent`
are flat, so the parsed document is modelled as one record with an optional
element per tag the code looks up. -/

/-- An XML element as the code consumes it: only its text payload. -/
structure XmlElem where
  text : Option String
deriving Repr, DecidableEq

/-- The parsed inbound XML document: `find` results for each tag that
`update_preset` / `add_recent` look up. -/
structure InboundXml where
  name : Option XmlElem
  sourceid : Option XmlElem
  location : Option XmlElem
  contentItemType : Option XmlElem
  containerArt : Option XmlElem
  lastplayedat : Option XmlElem
deriving Repr, DecidableEq

/-- `marge.strip_element_text`: `""` for a missing element or missing/empty
text, otherwise the stripped text. -/
def strip_element_text : Option XmlElem → String
  | none => ""
  | some e =>
    match e.text with
    | none => ""
    | some t => if t = "" then "" else str_strip t

/-! ### Source resolution (`marge.content_item_source_xml`, lines 147-176)

The Python function returns the XML rendering of the resolved
`ConfiguredSource` or raises `HTTPException(400)`.  The embedding returns
the resolved source itself (whose rendering `configured_source_xml` is a
pure function of it). -/

/-- The fallback (provider-type, provider-account) match of
`content_item_source_xml`: `cs.source_key_type == content_item.source and
(cs.source_key_account == content_item.source_account or (not
cs.source_key_account and not content_item.source_account))`. -/
def source_key_match (content_item : ContentItem) (cs : ConfiguredSource) : Bool :=
  pyEqOptStr content_item.source cs.source_key_type
  && (pyEqOptStr content_item.source_account cs.source_key_account
      || (cs.source_key_account == "" && !truthy_opt content_item.source_account))

/-- `marge.content_item_source_xml`: resolve a ContentItem to a
ConfiguredSource.  An id reference is used when `content_item.source_id` is
truthy (non-`None`, non-empty); otherwise the (provider-type,
provider-account) fallback applies.  Failure is `HTTPException(400)`. -/
def content_item_source_xml (configured_sources : List ConfiguredSource)
    (content_item : ContentItem) : Except Err ConfiguredSource :=
  if truthy_opt content_item.source_id then
    match configured_sources.find? (fun cs => pyEqOptStr content_item.source_id cs.id) with
    | some matching_src => Except.ok matching_src
    | none => Except.error (Err.http 400 "Invalid source")
  else
    match configured_sources.find? (source_key_match content_item) with
    | some matching_src => Except.ok matching_src
    | none => Except.error (Err.http 400 "Invalid source")

/-! ### Codec mutations (`marge.update_preset`, `marge.add_recent`)

The account's persisted collections, as read and written through the
`DataStore`, are modelled as one record; `get_presets` / `get_recents` /
`get_configured_sources` are field reads and `save_presets` /
`save_recents` replace a field.  Each operation returns its result paired
with the state of the store when it finishes: at every raise point the
store as of that statement is returned, so the theorems about the store on
the error path track the position of the `save` call in the source. -/

/-- The persisted collections of one account as the codec sees them. -/
structure MargeState where
  presets : List Preset
  recents : List Recent
  sources : List ConfiguredSource
deriving Repr, DecidableEq

/-- The source lookup of `update_preset` (line 118):
`next(src for src in conf_sources_list if src.id == source_id)` with
`source_id : str`. -/
def preset_source_lookup (sources : List ConfiguredSource) (source_id : String) :
    Option ConfiguredSource :=
  sources.find? (fun src => src.id == source_id)

/-- `marge.update_preset` (lines 94-144).  `now` is
`int(datetime.now().timestamp())`.  The slot write
`presets_list[preset_number - 1] = preset_obj` is Python list assignment:
negative indices count from the end and an out-of-range index raises an
unhandled `IndexError`. -/
def update_preset (st : MargeState) (preset_number : Int) (xml : InboundXml)
    (now : Int) : Except Err Preset × MargeState :=
  let conf_sources_list := st.sources
  let presets_list := st.presets
  let name := strip_element_text xml.name
  let source_id := strip_element_text xml.sourceid
  let location := strip_element_text xml.location
  let content_item_type := strip_element_text xml.contentItemType
  let container_art := strip_element_text xml.containerArt
  match preset_source_lookup conf_sources_list source_id with
  | none => (Except.error (Err.http 400 ("Invalid source " ++ source_id)), st)
  | some matching_src =>
    let source := matching_src.source_key_type
    let source_account := matching_src.source_key_account
    let now_str := toString now
    let preset_obj : Preset := {
      id := toString preset_number,
      type := content_item_type,
      created_on := now_str,
      updated_on := now_str,
      name := name,
      source := some source,
      location := location,
      source_id := some source_id,
      source_account := some source_account,
      is_presetable := none,
      container_art := container_art }
    match py_list_set presets_list (preset_number - 1) preset_obj with
    | Except.error e => (Except.error e, st)
    | Except.ok presets_list2 =>
      (Except.ok preset_obj, { st with presets := presets_list2 })

/-- The replay match of `add_recent` (lines 282-291): `i.source == source
and i.location == location and i.source_account == source_account`, where
`source` / `source_account` come from the resolved ConfiguredSource and
`location` is the optional text of the inbound `<location>` element. -/
def recent_match (source : String) (location : Option String)
    (source_account : String) (i : Recent) : Bool :=
  pyEqOptStr i.source source
  && pyEqOptStr location i.location
  && pyEqOptStr i.source_account source_account

/-- `next((i for i in recents_list if ...), None)` of `add_recent`. -/
def recent_lookup (l : List Recent) (source : String) (location : Option String)
    (source_account : String) : Option Recent :=
  l.find? (recent_match source location source_account)

/-- The in-place timestamp update `matching_recent.utc_time = str(utc_time)`:
the first matching object in the list is mutated, the list order is kept. -/
def set_first_match (l : List Recent) (source : String) (location : Option String)
    (source_account : String) (t : String) : List Recent :=
  match l with
  | [] => []
  | r :: rs =>
    if recent_match source location source_account r
    then { r with utc_time := t } :: rs
    else r :: set_first_match rs source location source_account t

/-- The source lookup of `add_recent` (line 275):
`next(src for src in conf_sources_list if src.id == source_id)` with
`source_id : Optional[str]` (the raw `.text` of the `<sourceid>` element). -/
def source_lookup (sources : List ConfiguredSource) (source_id : Option String) :
    Option ConfiguredSource :=
  sources.find? (fun src => pyEqOptStr source_id src.id)

/-- `max(int(recent.id) for recent in recents_list)`: `ValueError` on a
non-numeric id or on an empty list (Python `max()` of an empty sequence). -/
def max_int_ids (l : List Recent) : Except Err Int :=
  match l.mapM (fun r => pyInt r.id) with
  | Except.error e => Except.error e
  | Except.ok [] => Except.error (Err.py PyError.valueError)
  | Except.ok (v :: vs) => Except.ok (vs.foldl max v)

/-- The `utc_time` computation of `add_recent` (lines 258-262): the parsed
client `lastplayedat` when the element is present with truthy text, server
time `now` otherwise.  `fromiso` abstracts
`int(datetime.fromisoformat(t).timestamp())`. -/
def recent_utc_time (fromiso : String → Int) (xml : InboundXml) (now : Int) : Int :=
  match xml.lastplayedat with
  | some e =>
    match e.text with
    | some t => if t != "" then fromiso t else now
    | none => now
  | none => now

/-- `marge.add_recent` (lines 248-341).  `now` is
`int(datetime.now().timestamp())`.  A missing `<name>` / `<sourceid>` /
`<location>` element makes `.text` raise an unhandled `AttributeError`
(lines 264-269); constructing a `Recent` with `name=None` or
`location=None` raises an unhandled pydantic validation error, modelled as
`PyError.valueError`. -/
def add_recent (fromiso : String → Int) (st : MargeState) (device : String)
    (xml : InboundXml) (now : Int) : Except Err Recent × MargeState :=
  let conf_sources_list := st.sources
  let recents_list := st.recents
  let device_id := device
  let utc_time := recent_utc_time fromiso xml now
  match xml.name with
  | none => (Except.error (Err.py PyError.attributeError), st)
  | some name_elem =>
    match xml.sourceid with
    | none => (Except.error (Err.py PyError.attributeError), st)
    | some sourceid_elem =>
      match xml.location with
      | none => (Except.error (Err.py PyError.attributeError), st)
      | some location_elem =>
        let name := name_elem.text
        let source_id := sourceid_elem.text
        let location := location_elem.text
        let is_presetable := "true"
        let type := strip_element_text xml.contentItemType
        match source_lookup conf_sources_list source_id with
        | none =>
          (Except.error (Err.http 400 ("Invalid source " ++ pyStr source_id)), st)
        | some matching_src =>
          let source := matching_src.source_key_type
          let source_account := matching_src.source_key_account
          match recent_lookup recents_list source location source_account with
          | some matching_recent =>
            let recent_obj := { matching_recent with utc_time := toString utc_time }
            let recents_list2 :=
              set_first_match recents_list source location source_account
                (toString utc_time)
            (Except.ok recent_obj, { st with recents := recents_list2 })
          | none =>
            match max_int_ids recents_list with
            | Except.error e => (Except.error e, st)
            | Except.ok m =>
              let next_id := m + 1
              match name with
              | none => (Except.error (Err.py PyError.valueError), st)
              | some nm =>
                match location with
                | none => (Except.error (Err.py PyError.valueError), st)
                | some loc =>
                  let recent_obj : Recent := {
                    id := toString next_id,
                    name := nm,
                    source := some source,
                    type := type,
                    location := loc,
                    source_account := some source_account,
                    source_id := source_id,
                    is_presetable := some is_presetable,
                    device_id := device_id,
                    utc_time := toString utc_time,
                    container_art := none }
                  let recents_list2 := (recent_obj :: recents_list).take 10
                  (Except.ok recent_obj, { st with recents := recents_list2 })

/-! ### Data store (`src/soundcork/datastore.py`)

The filesystem is modelled as an association list from file paths (the
strings `os.path.join` produces) to parsed file contents; serialising a
collection to XML and parsing it back is abstracted as storing the
collection itself, while every path computation is embedded exactly.
`ET.parse` of a missing file raises `FileNotFoundError`; reading a file
whose content is not the expected document kind is a parse error
(`PyError.valueError`). -/

/-- `os.path.join(a, b)` on posix. -/
def path_join (a b : String) : String := a ++ "/" ++ b

/-- `constants.PRESETS_FILE`. -/
def PRESETS_FILE : String := "Presets.xml"

/-- `constants.RECENTS_FILE`. -/
def RECENTS_FILE : String := "Recents.xml"

/-- `constants.SOURCES_FILE`. -/
def SOURCES_FILE : String := "Sources.xml"

/-- `constants.DEVICES_DIR`. -/
def DEVICES_DIR : String := "devices"

/-- Python `dict` lookup on an association list (first binding wins; the
embedding never creates duplicate keys). -/
def dictGet {α : Type} : List (String × α) → String → Option α
  | [], _ => none
  | (k1, v1) :: rest, k => if k1 == k then some v1 else dictGet rest k

/-- Python `dict` assignment `d[k] = v`: replace the binding when the key
exists, append it otherwise. -/
def dictSet {α : Type} : List (String × α) → String → α → List (String × α)
  | [], k, v => [(k, v)]
  | (k1, v1) :: rest, k, v =>
    if k1 == k then (k1, v) :: rest else (k1, v1) :: dictSet rest k v

/-- Content of one stored file, abstracting XML (de)serialisation. -/
inductive FileContent where
  | presetsDoc (l : List Preset)
  | recentsDoc (l : List Recent)
  | sourcesDoc (l : List ConfiguredSource)
deriving Repr, DecidableEq

/-- The filesystem: path → stored document. -/
abbrev FS := List (String × FileContent)

/-- `DataStore`: carries `settings.data_dir`. -/
structure DataStore where
  data_dir : String
deriving Repr, DecidableEq

/-- `DataStore.account_dir`. -/
def DataStore.account_dir (ds : DataStore) (account : String) : String :=
  path_join ds.data_dir account

/-- `DataStore.account_devices_dir`. -/
def DataStore.account_devices_dir (ds : DataStore) (account : String) : String :=
  path_join (path_join ds.data_dir account) DEVICES_DIR

/-- The file `save_presets` / `get_presets` use:
`path.join(self.account_dir(account), PRESETS_FILE)` — the device is not
part of the path. -/
def DataStore.presets_path (ds : DataStore) (account : String) : String :=
  path_join (ds.account_dir account) PRESETS_FILE

/-- The file `save_recents` / `get_recents` use. -/
def DataStore.recents_path (ds : DataStore) (account : String) : String :=
  path_join (ds.account_dir account) RECENTS_FILE

/-- The file `get_configured_sources` uses. -/
def DataStore.sources_path (ds : DataStore) (account : String) : String :=
  path_join (ds.account_dir account) SOURCES_FILE

/-- `DataStore.save_presets(account, device, presets_list)`: writes the
serialised collection to the account-level presets file.  The `device`
argument appears in the signature but is not used in the path. -/
def DataStore.save_presets (ds : DataStore) (fs : FS) (account device : String)
    (presets_list : List Preset) : FS :=
  dictSet fs (ds.presets_path account) (FileContent.presetsDoc presets_list)

/-- `DataStore.get_presets(account, device)`: parses the account-level
presets file; the `device` argument is unused. -/
def DataStore.get_presets (ds : DataStore) (fs : FS) (account device : String) :
    Except Err (List Preset) :=
  match dictGet fs (ds.presets_path account) with
  | some (FileContent.presetsDoc l) => Except.ok l
  | some _ => Except.error (Err.py PyError.valueError)
  | none => Except.error (Err.py PyError.fileNotFoundError)

/-- `DataStore.save_recents(account, device, recents_list)`. -/
def DataStore.save_recents (ds : DataStore) (fs : FS) (account device : String)
    (recents_list : List Recent) : FS :=
  dictSet fs (ds.recents_path account) (FileContent.recentsDoc recents_list)

/-- `DataStore.get_recents(account, device)` (lines 165-203): parses the
account-level recents file; the `device` argument is unused. -/
def DataStore.get_recents (ds : DataStore) (fs : FS) (account device : String) :
    Except Err (List Recent) :=
  match dictGet fs (ds.recents_path account) with
  | some (FileContent.recentsDoc l) => Except.ok l
  | some _ => Except.error (Err.py PyError.valueError)
  | none => Except.error (Err.py PyError.fileNotFoundError)

/-- `DataStore.get_configured_sources(account, device)`: parses the
account-level sources file; the `device` argument is unused. -/
def DataStore.get_configured_sources (ds : DataStore) (fs : FS)
    (account device : String) : Except Err (List ConfiguredSource) :=
  match dictGet fs (ds.sources_path account) with
  | some (FileContent.sourcesDoc l) => Except.ok l
  | some _ => Except.error (Err.py PyError.valueError)
  | none => Except.error (Err.py PyError.fileNotFoundError)

/-! ### Gateway dispatcher (`src/soundcork/proxy.py`) -/

/-- `proxy.CIRCUIT_BREAKER_COOLDOWN` (seconds). -/
def CIRCUIT_BREAKER_COOLDOWN : Int := 300

/- `proxy.UPSTREAM_TIMEOUT` is a network concern with no bearing on the
claims, so it is not modelled. -/

/-- `proxy.HOP_BY_HOP`: headers that must not be forwarded. -/
def HOP_BY_HOP : List String :=
  ["host", "transfer-encoding", "connection", "keep-alive",
   "proxy-authenticate", "proxy-authorization", "te", "trailers", "upgrade"]

/-- One entry of `CircuitBreaker._circuits`: the dict
`{"open": bool, "last_failure": float, "failures": int}`.  `openFlag`
models the `"open"` key (`open` is a Lean keyword). -/
structure CircuitState where
  openFlag : Bool
  last_failure : Int
  failures : Nat
deriving Repr, DecidableEq

/-- `proxy.CircuitBreaker`: cooldown plus the per-upstream-host state
dict. -/
structure CircuitBreaker where
  cooldown : Int
  circuits : List (String × CircuitState)
deriving Repr, DecidableEq

/-- `CircuitBreaker.__init__` with the default cooldown. -/
def CircuitBreaker.new : CircuitBreaker :=
  { cooldown := CIRCUIT_BREAKER_COOLDOWN, circuits := [] }

/-- `CircuitBreaker.is_open` (lines 59-67): `now` models
`time.monotonic()`. -/
def CircuitBreaker.is_open (cb : CircuitBreaker) (upstream_base : String)
    (now : Int) : Bool :=
  match dictGet cb.circuits upstream_base with
  | none => false
  | some state =>
    if !state.openFlag then false
    else if now - state.last_failure > cb.cooldown then false
    else true

/-- `CircuitBreaker.record_failure` (lines 69-86). -/
def CircuitBreaker.record_failure (cb : CircuitBreaker) (upstream_base : String)
    (now : Int) : CircuitBreaker :=
  match dictGet cb.circuits upstream_base with
  | none =>
    let st : CircuitState := { openFlag := true, last_failure := now, failures := 1 }
    { cb with circuits := dictSet cb.circuits upstream_base st }
  | some state =>
    let st : CircuitState :=
      { openFlag := true, last_failure := now, failures := state.failures + 1 }
    { cb with circuits := dictSet cb.circuits upstream_base st }

/-- The failure count `record_failure` stores for a host: 1 for a fresh
entry, the previous count plus one otherwise. -/
def failures_after (cb : CircuitBreaker) (upstream_base : String) : Nat :=
  match dictGet cb.circuits upstream_base with
  | none => 1
  | some state => state.failures + 1

/-- `CircuitBreaker.record_success` (lines 88-94): only an existing, open
circuit is closed and its failure count reset. -/
def CircuitBreaker.record_success (cb : CircuitBreaker) (upstream_base : String) :
    CircuitBreaker :=
  match dictGet cb.circuits upstream_base with
  | some state =>
    if state.openFlag then
      let st : CircuitState := { state with openFlag := false, failures := 0 }
      { cb with circuits := dictSet cb.circuits upstream_base st }
    else cb
  | none => cb

/-- What the network attempt of `_forward_with_fallback` yields:
`httpx.RequestError`, or an upstream response with status, headers and
body. -/
inductive UpstreamOutcome where
  | requestError
  | response (status : Nat) (headers : List (String × String)) (body : String)
deriving Repr, DecidableEq

/-- Whether an outcome is counted as a forward failure by
`_forward_with_fallback`: a `RequestError`, or HTTP 404 / ≥ 500. -/
def upstream_bad : UpstreamOutcome → Prop
  | UpstreamOutcome.requestError => True
  | UpstreamOutcome.response status _ _ => status = 404 ∨ 500 ≤ status

instance : DecidablePred upstream_bad := fun o =>
  match o with
  | UpstreamOutcome.requestError => Decidable.isTrue trivial
  | UpstreamOutcome.response status _ _ =>
    inferInstanceAs (Decidable (status = 404 ∨ 500 ≤ status))

/-- What the dispatcher returns to the caller: the local handler's response
(with the fallback reason string that is logged), or the upstream response
(status, filtered headers, body). -/
inductive Served where
  | localResp (fallback : String)
  | upstreamResp (status : Nat) (headers : List (String × String)) (body : String)
deriving Repr, DecidableEq

/-- Python `str.lower()` on a header name (header names are ASCII, on which
per-character lowercasing is exact). -/
def str_lower (s : String) : String := String.mk (s.data.map Char.toLower)

/-- Request-direction header filter (line 296):
`{k: v for k, v in request.headers.items() if k.lower() not in HOP_BY_HOP}`. -/
def fwd_headers (headers : List (String × String)) : List (String × String) :=
  headers.filter (fun kv => !(HOP_BY_HOP.contains (str_lower kv.1)))

/-- The response-direction exclusion set (line 377):
`{"content-encoding", "content-length", "transfer-encoding"}` — stripped
because httpx already decoded the body; the `Response` layer recomputes
framing. -/
def RETURN_EXCLUDED : List String :=
  ["content-encoding", "content-length", "transfer-encoding"]

/-- Response-direction header filter (line 378). -/
def return_headers (headers : List (String × String)) : List (String × String) :=
  headers.filter (fun kv => !(RETURN_EXCLUDED.contains (str_lower kv.1)))

/-- `ProxyMiddleware._forward_with_fallback` (lines 264-384), sequential
semantics for one request at time `now`.  Returns what is served, the
circuit breaker afterwards, and — when a network attempt was made — the
headers forwarded upstream (`none` means the upstream was never
contacted).  `outcome` is what the network would answer; the open-circuit
branch returns before any network call, so its result does not depend on
`outcome`. -/
def forward_with_fallback (cb : CircuitBreaker) (upstream_base : String)
    (now : Int) (req_headers : List (String × String))
    (outcome : UpstreamOutcome) :
    Served × CircuitBreaker × Option (List (String × String)) :=
  if cb.is_open upstream_base now then
    (Served.localResp "circuit_open", cb, none)
  else
    match outcome with
    | UpstreamOutcome.requestError =>
      (Served.localResp "upstream_error",
       cb.record_failure upstream_base now,
       some (fwd_headers req_headers))
    | UpstreamOutcome.response status headers body =>
      if status = 404 ∨ 500 ≤ status then
        (Served.localResp ("upstream_http_" ++ toString status),
         cb.record_failure upstream_base now,
         some (fwd_headers req_headers))
      else
        (Served.upstreamResp status (return_headers headers) body,
         cb.record_success upstream_base,
         some (fwd_headers req_headers))

/-- The `Recent` object `add_recent` constructs on the no-match path
(lines 303-314), as a function of the extracted inputs.  Field values match
the `Recent(...)` constructor call: a fresh id, the resolved source's key
type and account, `is_presetable="true"`, no container art. -/
def new_recent_obj (fromiso : String → Int) (xml : InboundXml) (now : Int)
    (dev : String) (src : ConfiguredSource) (m : Int) (nm loc : String)
    (sid : Option String) : Recent :=
  { id := toString (m + 1),
    name := nm,
    source := some src.source_key_type,
    type := strip_element_text xml.contentItemType,
    location := loc,
    source_account := some src.source_key_account,
    source_id := sid,
    is_presetable := some "true",
    device_id := dev,
    utc_time := toString (recent_utc_time fromiso xml now),
    container_art := none }

/-! ### Concrete fixtures used by counterexamples and witnesses -/

/-- A configured TuneIn source: id `"1"`, empty provider account (as in the
spec's §8 example scenario). -/
def fxTunein : ConfiguredSource :=
  { display_name := "TuneIn", id := "1", secret := "sec", secret_type := "token",
    source_key_type := "TUNEIN", source_key_account := "" }

/-- A second configured source on a different provider and account, with
id `"7"`. -/
def fxSpotify : ConfiguredSource :=
  { display_name := "Spotify", id := "7", secret := "tok", secret_type := "token_version_3",
    source_key_type := "SPOTIFY", source_key_account := "user" }

/-- A stored recent entry at TuneIn location `s1`. -/
def fxRecent1 : Recent :=
  { id := "1", name := "One", source := some "TUNEIN", type := "stationurl",
    location := "s1", source_account := some "", source_id := none,
    is_presetable := some "true", device_id := "dev", utc_time := "100",
    container_art := none }

/-- A stored recent entry at TuneIn location `s24062`. -/
def fxRecent2 : Recent :=
  { id := "2", name := "WXRV", source := some "TUNEIN", type := "stationurl",
    location := "s24062", source_account := some "", source_id := none,
    is_presetable := some "true", device_id := "dev", utc_time := "200",
    container_art := none }

/-- A stored preset (slot 1). -/
def fxPreset1 : Preset :=
  { id := "1", name := "P One", source := some "TUNEIN", type := "stationurl",
    location := "s1", source_account := some "", source_id := none,
    is_presetable := none, container_art := "", created_on := "10", updated_on := "10" }

/-- A stored preset (slot 2). -/
def fxPreset2 : Preset :=
  { id := "2", name := "P Two", source := some "TUNEIN", type := "stationurl",
    location := "s2", source_account := some "", source_id := none,
    is_presetable := none, container_art := "", created_on := "10", updated_on := "10" }

/-- A complete inbound XML document (all required tags present), resolving
to `fxTunein` and locating `s24062` — the spec's §8 example payload. -/
def xmlFull : InboundXml :=
  { name := some ⟨some "WXRV"⟩, sourceid := some ⟨some "1"⟩,
    location := some ⟨some "s24062"⟩, contentItemType := some ⟨some "stationurl"⟩,
    containerArt := none, lastplayedat := none }

/-- `xmlFull` with the `<name>` element missing. -/
def xmlNoName : InboundXml :=
  { name := none, sourceid := some ⟨some "1"⟩,
    location := some ⟨some "s24062"⟩, contentItemType := some ⟨some "stationurl"⟩,
    containerArt := none, lastplayedat := none }

/-- Store state with two recents (`fxRecent1`, `fxRecent2`), the second of
which matches `xmlFull` on (provider, location, provider-account). -/
def stReplay : MargeState :=
  { presets := [], recents := [fxRecent1, fxRecent2], sources := [fxTunein] }

/-- Store state with a two-preset collection. -/
def stTwoPresets : MargeState :=
  { presets := [fxPreset1, fxPreset2], recents := [], sources := [fxTunein] }

/-- Store state with an empty recents collection. -/
def stEmptyRecents : MargeState :=
  { presets := [], recents := [], sources := [fxTunein] }

/-- Store state with one recent that does not match `xmlFull`. -/
def stOneRecent : MargeState :=
  { presets := [], recents := [fxRecent1], sources := [fxTunein] }

/-- Store state with no configured sources at all. -/
def stNoSources : MargeState :=
  { presets := [fxPreset1], recents := [fxRecent1], sources := [] }

/-- The preset `update_preset stTwoPresets 0 xmlFull 50` builds: slot id
`"0"`, timestamps `"50"`, fields from `xmlFull` resolved via `fxTunein`. -/
def fxPresetSlot0 : Preset :=
  { id := "0", name := "WXRV", source := some "TUNEIN", type := "stationurl",
    location := "s24062", source_account := some "", source_id := some "1",
    is_presetable := none, container_art := "", created_on := "50", updated_on := "50" }

/-- The preset `update_preset stTwoPresets 1 xmlNoName 50` builds: the
missing `<name>` becomes the empty string. -/
def fxPresetNoName : Preset :=
  { id := "1", name := "", source := some "TUNEIN", type := "stationurl",
    location := "s24062", source_account := some "", source_id := some "1",
    is_presetable := none, container_art := "", created_on := "50", updated_on := "50" }

/-- A ContentItem carrying `source_id="7"` whose (provider-type,
provider-account) pair `(TUNEIN, "")` would match `fxTunein`, while its id
matches only `fxSpotify` (the spec's §8 source-resolution scenario). -/
def ciSpot : ContentItem :=
  { id := "p1", name := "x", source := some "TUNEIN", type := "stationurl",
    location := "s1", source_account := some "", source_id := some "7",
    is_presetable := none }

/-- A DataStore rooted at `data`. -/
def fxStore : DataStore := { data_dir := "data" }

/-! ### Helper lemmas -/

theorem dictGet_dictSet_self {α : Type} (d : List (String × α)) (k : String) (v : α) :
    dictGet (dictSet d k v) k = some v := by
  induction d with
  | nil => simp [dictSet, dictGet]
  | cons hd tl ih =>
    obtain ⟨k1, v1⟩ := hd
    cases h : k1 == k <;> simp [dictSet, dictGet, h, ih]

theorem record_failure_get (cb : CircuitBreaker) (ub : String) (now : Int) :
    dictGet (cb.record_failure ub now).circuits ub =
      some ⟨true, now, failures_after cb ub⟩ := by
  unfold CircuitBreaker.record_failure failures_after
  cases h : dictGet cb.circuits ub <;> simp [h, dictGet_dictSet_self]

theorem record_failure_cooldown (cb : CircuitBreaker) (ub : String) (now : Int) :
    (cb.record_failure ub now).cooldown = cb.cooldown := by
  unfold CircuitBreaker.record_failure
  cases h : dictGet cb.circuits ub <;> simp [h]

theorem record_success_get_of_open (cb : CircuitBreaker) (ub : String)
    (st : CircuitState) (hget : dictGet cb.circuits ub = some st)
    (hopen : st.openFlag = true) :
    dictGet (cb.record_success ub).circuits ub =
      some ⟨false, st.last_failure, 0⟩ := by
  unfold CircuitBreaker.record_success
  rw [hget]
  simp [hopen, dictGet_dictSet_self]

theorem is_open_of_get_open (cb : CircuitBreaker) (ub : String) (now : Int)
    (st : CircuitState) (hget : dictGet cb.circuits ub = some st)
    (hopen : st.openFlag = true) :
    cb.is_open ub now = decide (now - st.last_failure ≤ cb.cooldown) := by
  unfold CircuitBreaker.is_open
  rw [hget]
  by_cases h : now - st.last_failure > cb.cooldown <;> simp [hopen, h] <;> omega

/-! ### Claim theorems -/

/-- Claim C2: once a forward failure is recorded for an upstream host at
time `f`, every request within the 300-second cooldown is answered locally
with no network attempt and no breaker change; after the cooldown elapses
the next request is let through as a probe (a network attempt happens); a
successful probe closes the circuit and resets the failure count, and a
failed probe re-opens the circuit with the cooldown clock restarted at the
probe time, so a further request within 300 seconds of the failed probe is
again served locally with no network attempt. -/
theorem c2_circuit_breaker_cooldown_and_probe
    (cb : CircuitBreaker) (ub : String) (f now t2 : Int)
    (req req2 : List (String × String)) (o o2 : UpstreamOutcome)
    (hcd : cb.cooldown = CIRCUIT_BREAKER_COOLDOWN) :
    (now - f ≤ CIRCUIT_BREAKER_COOLDOWN →
      forward_with_fallback (cb.record_failure ub f) ub now req o =
        (Served.localResp "circuit_open", cb.record_failure ub f, none))
    ∧ (CIRCUIT_BREAKER_COOLDOWN < now - f →
      ((forward_with_fallback (cb.record_failure ub f) ub now req o).2.2 =
          some (fwd_headers req))
      ∧ (¬ upstream_bad o →
          dictGet (forward_with_fallback (cb.record_failure ub f) ub now req o).2.1.circuits ub =
            some ⟨false, f, 0⟩)
      ∧ (upstream_bad o →
          (dictGet (forward_with_fallback (cb.record_failure ub f) ub now req o).2.1.circuits ub).map
              (fun s => (s.openFlag, s.last_failure)) = some (true, now)
          ∧ (t2 - now ≤ CIRCUIT_BREAKER_COOLDOWN →
              forward_with_fallback
                  (forward_with_fallback (cb.record_failure ub f) ub now req o).2.1
                  ub t2 req2 o2 =
                (Served.localResp "circuit_open",
                 (forward_with_fallback (cb.record_failure ub f) ub now req o).2.1,
                 none)))) := by
  have hget1 := record_failure_get cb ub f
  have hcd1 : (cb.record_failure ub f).cooldown = CIRCUIT_BREAKER_COOLDOWN := by
    rw [record_failure_cooldown, hcd]
  have hopen1 := is_open_of_get_open (cb.record_failure ub f) ub now _ hget1 rfl
  constructor
  · intro h
    have ho : (cb.record_failure ub f).is_open ub now = true := by
      rw [hopen1, hcd1]; simpa using h
    unfold forward_with_fallback
    rw [ho]
    simp
  · intro h
    have ho : (cb.record_failure ub f).is_open ub now = false := by
      rw [hopen1, hcd1]; simp; omega
    have hblock :
        ∀ cb2 : CircuitBreaker,
          cb2.cooldown = CIRCUIT_BREAKER_COOLDOWN →
          dictGet cb2.circuits ub = some ⟨true, now, failures_after (cb.record_failure ub f) ub⟩ →
          t2 - now ≤ CIRCUIT_BREAKER_COOLDOWN →
          forward_with_fallback cb2 ub t2 req2 o2 =
            (Served.localResp "circuit_open", cb2, none) := by
      intro cb2 hc2 hg2 ht2
      have ho2 : cb2.is_open ub t2 = true := by
        rw [is_open_of_get_open cb2 ub t2 _ hg2 rfl, hc2]
        simpa using ht2
      unfold forward_with_fallback
      rw [ho2]
      simp
    cases o with
    | requestError =>
      refine ⟨?_, ?_, ?_⟩
      · unfold forward_with_fallback
        rw [ho]
        simp
      · intro hb
        exact absurd trivial hb
      · intro _
        have hred :
            forward_with_fallback (cb.record_failure ub f) ub now req
                UpstreamOutcome.requestError =
              (Served.localResp "upstream_error",
               (cb.record_failure ub f).record_failure ub now,
               some (fwd_headers req)) := by
          unfold forward_with_fallback
          rw [ho]
          simp
        rw [hred]
        have hget2 := record_failure_get (cb.record_failure ub f) ub now
        refine ⟨by rw [hget2]; rfl, ?_⟩
        intro ht2
        exact hblock _ (by rw [record_failure_cooldown, hcd1]) hget2 ht2
    | response status hs body =>
      by_cases hb : status = 404 ∨ 500 ≤ status
      · have hred :
            forward_with_fallback (cb.record_failure ub f) ub now req
                (UpstreamOutcome.response status hs body) =
              (Served.localResp ("upstream_http_" ++ toString status),
               (cb.record_failure ub f).record_failure ub now,
               some (fwd_headers req)) := by
          unfold forward_with_fallback
          rw [ho]
          simp [hb]
        refine ⟨by rw [hred], ?_, ?_⟩
        · intro hnb
          exact absurd hb hnb
        · intro _
          rw [hred]
          have hget2 := record_failure_get (cb.record_failure ub f) ub now
          refine ⟨by rw [hget2]; rfl, ?_⟩
          intro ht2
          exact hblock _ (by rw [record_failure_cooldown, hcd1]) hget2 ht2
      · have hred :
            forward_with_fallback (cb.record_failure ub f) ub now req
                (UpstreamOutcome.response status hs body) =
              (Served.upstreamResp status (return_headers hs) body,
               (cb.record_failure ub f).record_success ub,
               some (fwd_headers req)) := by
          unfold forward_with_fallback
          rw [ho]
          simp [hb]
        refine ⟨by rw [hred], ?_, ?_⟩
        · intro _
          rw [hred]
          exact record_success_get_of_open _ ub _ hget1 rfl
        · intro hbad
          exact absurd hbad hb

/-- Witness for C2 at a concrete instance: one failure at time 0, a blocked
request at time 100 (within the cooldown), then after the cooldown a failed
probe at time 301 re-opens the circuit so a request at time 400 is blocked
again. -/
theorem c2_circuit_breaker_witness :
    (forward_with_fallback (CircuitBreaker.new.record_failure "https://streaming.bose.com" 0)
        "https://streaming.bose.com" 100 [] UpstreamOutcome.requestError =
      (Served.localResp "circuit_open",
       CircuitBreaker.new.record_failure "https://streaming.bose.com" 0, none))
    ∧ forward_with_fallback
          (forward_with_fallback (CircuitBreaker.new.record_failure "https://streaming.bose.com" 0)
            "https://streaming.bose.com" 301 [] UpstreamOutcome.requestError).2.1
          "https://streaming.bose.com" 400 [] UpstreamOutcome.requestError =
        (Served.localResp "circuit_open",
         (forward_with_fallback (CircuitBreaker.new.record_failure "https://streaming.bose.com" 0)
            "https://streaming.bose.com" 301 [] UpstreamOutcome.requestError).2.1,
         none) := by
  constructor
  · exact (c2_circuit_breaker_cooldown_and_probe CircuitBreaker.new
      "https://streaming.bose.com" 0 100 0 [] [] UpstreamOutcome.requestError
      UpstreamOutcome.requestError rfl).1 (by decide)
  · exact (((c2_circuit_breaker_cooldown_and_probe CircuitBreaker.new
      "https://streaming.bose.com" 0 301 400 [] [] UpstreamOutcome.requestError
      UpstreamOutcome.requestError rfl).2 (by decide)).2.2 trivial).2 (by decide)

/-- Claim C7: when the circuit is closed and the upstream response has
status 404 or at least 500, the dispatcher records a circuit-breaker
failure for that upstream, discards the upstream response, and returns the
locally-rendered response; the upstream error body is never surfaced to the
caller. -/
theorem c7_fallback_on_bad_response
    (cb : CircuitBreaker) (ub : String) (now : Int)
    (req hs : List (String × String)) (status : Nat) (body : String)
    (hclosed : cb.is_open ub now = false)
    (hbad : status = 404 ∨ 500 ≤ status) :
    forward_with_fallback cb ub now req (UpstreamOutcome.response status hs body) =
      (Served.localResp ("upstream_http_" ++ toString status),
       cb.record_failure ub now,
       some (fwd_headers req))
    ∧ ∀ s h b,
        (forward_with_fallback cb ub now req (UpstreamOutcome.response status hs body)).1 ≠
          Served.upstreamResp s h b := by
  have hred :
      forward_with_fallback cb ub now req (UpstreamOutcome.response status hs body) =
        (Served.localResp ("upstream_http_" ++ toString status),
         cb.record_failure ub now,
         some (fwd_headers req)) := by
    unfold forward_with_fallback
    rw [hclosed]
    simp [hbad]
  refine ⟨hred, ?_⟩
  intro s h b
  rw [hred]
  simp

/-- Witness for C7 at a concrete instance: a 503 from the upstream with the
circuit closed is served locally, with the failure recorded. -/
theorem c7_fallback_on_bad_response_witness :
    forward_with_fallback CircuitBreaker.new "https://streaming.bose.com" 0 []
        (UpstreamOutcome.response 503 [] "upstream error body") =
      (Served.localResp "upstream_http_503",
       CircuitBreaker.new.record_failure "https://streaming.bose.com" 0,
       some (fwd_headers [])) := by
  exact (c7_fallback_on_bad_response CircuitBreaker.new "https://streaming.bose.com"
    0 [] [] 503 "upstream error body" (by decide) (by decide)).1

/-- Counterexample to claim C9: `Connection` is a hop-by-hop header, but an
upstream response carrying it is returned to the caller with the header
intact — the response direction strips only the three content-framing
headers, not the hop-by-hop set. -/
theorem c9_connection_header_passthrough :
    (forward_with_fallback CircuitBreaker.new "https://streaming.bose.com" 0 []
        (UpstreamOutcome.response 200 [("Connection", "keep-alive")] "ok")).1 =
      Served.upstreamResp 200 [("Connection", "keep-alive")] "ok"
    ∧ "connection" ∈ HOP_BY_HOP := by
  constructor
  · decide
  · decide

/-- Claim C9 (amended): hop-by-hop headers are stripped from the request
before forwarding; on the return direction only `Content-Encoding`,
`Content-Length` and `Transfer-Encoding` are dropped from the upstream
response (they are recomputed by the HTTP layer) while the other hop-by-hop
headers, such as `Connection`, are passed through to the caller. -/
theorem c9_header_discipline_amended
    (cb : CircuitBreaker) (ub : String) (now : Int)
    (req hs : List (String × String)) (status : Nat) (body : String)
    (kv : String × String)
    (hclosed : cb.is_open ub now = false)
    (hok : ¬ (status = 404 ∨ 500 ≤ status)) :
    ((forward_with_fallback cb ub now req (UpstreamOutcome.response status hs body)).2.2 =
        some (fwd_headers req))
    ∧ (kv ∈ fwd_headers req ↔ kv ∈ req ∧ str_lower kv.1 ∉ HOP_BY_HOP)
    ∧ ((forward_with_fallback cb ub now req (UpstreamOutcome.response status hs body)).1 =
        Served.upstreamResp status (return_headers hs) body)
    ∧ (kv ∈ return_headers hs ↔ kv ∈ hs ∧ str_lower kv.1 ∉ RETURN_EXCLUDED) := by
  have hred :
      forward_with_fallback cb ub now req (UpstreamOutcome.response status hs body) =
        (Served.upstreamResp status (return_headers hs) body,
         cb.record_success ub,
         some (fwd_headers req)) := by
    unfold forward_with_fallback
    rw [hclosed]
    simp [hok]
  refine ⟨by rw [hred], ?_, by rw [hred], ?_⟩
  · simp [fwd_headers, List.mem_filter, List.contains]
  · simp [return_headers, List.mem_filter, List.contains]

/-- Witness for C9 (amended) at a concrete instance: a `Host` request
header is dropped before forwarding while a `Connection` response header
survives the return direction. -/
theorem c9_header_discipline_witness :
    ((forward_with_fallback CircuitBreaker.new "https://streaming.bose.com" 0
        [("Host", "speaker.local")]
        (UpstreamOutcome.response 200 [("Connection", "close")] "ok")).2.2 =
      some (fwd_headers [("Host", "speaker.local")]))
    ∧ (("Connection", "close") ∈ return_headers [("Connection", "close")] ↔
        ("Connection", "close") ∈ [("Connection", "close")] ∧
          str_lower ("Connection", "close").1 ∉ RETURN_EXCLUDED) := by
  refine ⟨?_, ?_⟩
  · exact (c9_header_discipline_amended CircuitBreaker.new "https://streaming.bose.com"
      0 [("Host", "speaker.local")] [("Connection", "close")] 200 "ok"
      ("Connection", "close") (by decide) (by decide)).1
  · exact (c9_header_discipline_amended CircuitBreaker.new "https://streaming.bose.com"
      0 [("Host", "speaker.local")] [("Connection", "close")] 200 "ok"
      ("Connection", "close") (by decide) (by decide)).2.2.2

/-- Claim C1, evaluated at the failing input: an `add_recent` whose item
matches the stored entry at position 1 updates that entry's timestamp in
place and does not grow the list (both as claimed), but the code never
moves the matched entry to position 0 — the list stays `[fxRecent1,
updated fxRecent2]`, contradicting the code's own comment (marge.py line
294, "move it to the front of the list") and the claim. -/
theorem c1_replay_updates_in_place :
    add_recent (fun _ => 0) stReplay "dev" xmlFull 1000 =
      (Except.ok ({ fxRecent2 with utc_time := "1000" }),
       { stReplay with recents := [fxRecent1, { fxRecent2 with utc_time := "1000" }] })
    ∧ stReplay.recents.length = 2
    ∧ (add_recent (fun _ => 0) stReplay "dev" xmlFull 1000).2.recents.length = 2
    ∧ (add_recent (fun _ => 0) stReplay "dev" xmlFull 1000).2.recents.head? ≠
        some ({ fxRecent2 with utc_time := "1000" }) := by
  refine ⟨by decide, by decide, by decide, by decide⟩

/-- Counterexample to claim C3: the store files are keyed by account only.
Device `d2`'s preset collection is `[fxPreset1]`, yet a
`save_presets` addressed to device `d1` replaces what `d2` reads —
`get_presets(account, d2)` afterwards returns `[fxPreset2]`, so the save
did not replace "only device d1's collection". -/
theorem c3_device_key_counterexample :
    DataStore.get_presets fxStore
        (DataStore.save_presets fxStore [] "12345" "d2" [fxPreset1]) "12345" "d2" =
      Except.ok [fxPreset1]
    ∧ DataStore.get_presets fxStore
        (DataStore.save_presets fxStore
          (DataStore.save_presets fxStore [] "12345" "d2" [fxPreset1])
          "12345" "d1" [fxPreset2]) "12345" "d2" =
      Except.ok [fxPreset2]
    ∧ ([fxPreset2] : List Preset) ≠ [fxPreset1] := by
  refine ⟨by decide, by decide, by decide⟩

/-- Claim C3 (amended): store collections are keyed by account only — the
`device` argument of `get_presets`/`save_presets`/`get_recents`/
`save_recents`/`get_configured_sources` is accepted but ignored, so a save
issued for any device replaces the single account-wide collection that
every device of the account reads (whole-collection read/replace
semantics). -/
theorem c3_account_scoped_store (ds : DataStore) (fs : FS) (a d d2 : String)
    (ps : List Preset) (rs : List Recent) :
    DataStore.get_presets ds (DataStore.save_presets ds fs a d ps) a d2 = Except.ok ps
    ∧ DataStore.get_recents ds (DataStore.save_recents ds fs a d rs) a d2 = Except.ok rs
    ∧ DataStore.get_configured_sources ds fs a d =
        DataStore.get_configured_sources ds fs a d2 := by
  refine ⟨?_, ?_, rfl⟩
  · unfold DataStore.get_presets DataStore.save_presets
    rw [dictGet_dictSet_self]
  · unfold DataStore.get_recents DataStore.save_recents
    rw [dictGet_dictSet_self]

/-- Claim C4, evaluated at the failing inputs: on a two-preset collection,
slot 3 raises an unhandled Python `IndexError` (an HTTP 500, not the
claimed structured 400 client error) and leaves the collection unchanged,
while slot 0 raises no error at all — Python negative indexing silently
replaces the last preset. -/
theorem c4_slot_out_of_range_eval :
    update_preset stTwoPresets 3 xmlFull 50 =
      (Except.error (Err.py PyError.indexError), stTwoPresets)
    ∧ (update_preset stTwoPresets 0 xmlFull 50).1 = Except.ok fxPresetSlot0
    ∧ (update_preset stTwoPresets 0 xmlFull 50).2.presets = [fxPreset1, fxPresetSlot0] := by
  refine ⟨by decide, by decide, by decide⟩

/-- Counterexample to claim C5: an `update_preset` payload with the
`<name>` element missing does not fail — the missing name is tolerated as
an empty string and the operation succeeds. -/
theorem c5_missing_name_accepted :
    xmlNoName.name = none
    ∧ (update_preset stTwoPresets 1 xmlNoName 50).1 = Except.ok fxPresetNoName := by
  refine ⟨rfl, by decide⟩

/-- Claim C5 (amended): only `add_recent` treats name, source identifier
and location as required, and a missing element there raises an unhandled
`AttributeError` rather than a structured client error; `update_preset`
tolerates missing name/location (stored as empty strings) and returns a
structured 400 only when its source identifier fails to resolve against
the configured sources. -/
theorem c5_required_fields_amended
    (st : MargeState) (n : Int) (xml : InboundXml) (now : Int)
    (fromiso : String → Int) (st2 : MargeState) (dev : String)
    (xml2 : InboundXml) (now2 : Int) :
    (preset_source_lookup st.sources (strip_element_text xml.sourceid) = none →
      update_preset st n xml now =
        (Except.error
          (Err.http 400 ("Invalid source " ++ strip_element_text xml.sourceid)), st))
    ∧ (xml2.name = none ∨ xml2.sourceid = none ∨ xml2.location = none →
      add_recent fromiso st2 dev xml2 now2 =
        (Except.error (Err.py PyError.attributeError), st2)) := by
  constructor
  · intro h
    simp [update_preset, h]
  · intro h
    rcases h with h | h | h
    · simp [add_recent, h]
    · cases hn : xml2.name with
      | none => simp [add_recent, hn]
      | some ne => simp [add_recent, hn, h]
    · cases hn : xml2.name with
      | none => simp [add_recent, hn]
      | some ne =>
        cases hs : xml2.sourceid with
        | none => simp [add_recent, hn, hs]
        | some se => simp [add_recent, hn, hs, h]

/-- Witness for C5 (amended) at concrete inputs: with no configured sources
the preset update is a structured 400; a recents payload with no `<name>`
element raises the unstructured attribute error. -/
theorem c5_required_fields_amended_witness :
    update_preset stNoSources 1 xmlFull 50 =
      (Except.error
        (Err.http 400 ("Invalid source " ++ strip_element_text xmlFull.sourceid)),
       stNoSources)
    ∧ add_recent (fun _ => 0) stOneRecent "dev" xmlNoName 1000 =
        (Except.error (Err.py PyError.attributeError), stOneRecent) := by
  exact ⟨(c5_required_fields_amended stNoSources 1 xmlFull 50
      (fun _ => 0) stOneRecent "dev" xmlNoName 1000).1 (by decide),
    (c5_required_fields_amended stNoSources 1 xmlFull 50
      (fun _ => 0) stOneRecent "dev" xmlNoName 1000).2 (Or.inl rfl)⟩

/-- Counterexample to claim C6: on an empty stored recents list (which the
claim explicitly includes) `add_recent` does not insert a fresh entry —
`max()` over the empty id sequence raises an unhandled `ValueError`. -/
theorem c6_empty_recents_error :
    stEmptyRecents.recents = []
    ∧ add_recent (fun _ => 0) stEmptyRecents "dev" xmlFull 1000 =
        (Except.error (Err.py PyError.valueError), stEmptyRecents) := by
  refine ⟨rfl, by decide⟩

/-- Claim C6 (amended): for a *non-empty* stored recents list with
integer-parsable ids whose maximum is `m`, an `add_recent` whose item
resolves but matches no existing entry allocates id `m + 1`, inserts the
new entry at position 0, and truncates the list to the 10 most recent
entries; in particular on a 10-entry list the result is the new entry
followed by the first 9 old entries — exactly 10, the oldest (last)
dropped. -/
theorem c6_new_recent_insertion
    (fromiso : String → Int) (st : MargeState) (dev : String) (xml : InboundXml)
    (now : Int) (ne se le : XmlElem) (nm loc : String)
    (src : ConfiguredSource) (m : Int)
    (h1 : xml.name = some ne) (h2 : xml.sourceid = some se)
    (h3 : xml.location = some le)
    (h4 : source_lookup st.sources se.text = some src)
    (h5 : recent_lookup st.recents src.source_key_type le.text
        src.source_key_account = none)
    (h6 : max_int_ids st.recents = Except.ok m)
    (h7 : ne.text = some nm) (h8 : le.text = some loc) :
    add_recent fromiso st dev xml now =
      (Except.ok (new_recent_obj fromiso xml now dev src m nm loc se.text),
       { st with recents :=
          (new_recent_obj fromiso xml now dev src m nm loc se.text ::
            st.recents).take 10 })
    ∧ ((new_recent_obj fromiso xml now dev src m nm loc se.text ::
          st.recents).take 10).length = min 10 (st.recents.length + 1)
    ∧ (st.recents.length = 10 →
        (new_recent_obj fromiso xml now dev src m nm loc se.text ::
            st.recents).take 10 =
          new_recent_obj fromiso xml now dev src m nm loc se.text ::
            st.recents.take 9
        ∧ ((new_recent_obj fromiso xml now dev src m nm loc se.text ::
              st.recents).take 10).length = 10) := by
  have h5b : recent_lookup st.recents src.source_key_type (some loc)
      src.source_key_account = none := by
    rw [← h8]; exact h5
  refine ⟨?_, ?_, ?_⟩
  · simp [add_recent, h1, h2, h3, h4, h5b, h6, h7, h8, new_recent_obj]
  · simp [List.length_take]; omega
  · intro h
    constructor
    · rfl
    · simp [List.length_take, h]

/-- Witness for C6 (amended) at a concrete input: a one-entry recents list
with max id 1 receives a distinct item; the new entry gets id 2 and lands
at the front. -/
theorem c6_new_recent_insertion_witness :
    add_recent (fun _ => 0) stOneRecent "dev" xmlFull 1000 =
      (Except.ok (new_recent_obj (fun _ => 0) xmlFull 1000 "dev" fxTunein 1
        "WXRV" "s24062" (some "1")),
       { stOneRecent with recents :=
          (new_recent_obj (fun _ => 0) xmlFull 1000 "dev" fxTunein 1
            "WXRV" "s24062" (some "1") :: stOneRecent.recents).take 10 }) := by
  exact (c6_new_recent_insertion (fun _ => 0) stOneRecent "dev" xmlFull 1000
    ⟨some "WXRV"⟩ ⟨some "1"⟩ ⟨some "s24062"⟩ "WXRV" "s24062" fxTunein 1
    rfl rfl rfl (by decide) (by decide) (by decide) rfl rfl).1

/-- Claim C8: when a ContentItem carries a (non-empty) `source_id`,
resolution selects the configured source with exactly that id — whatever
the (provider-type, provider-account) pair would match; only when
`source_id` is absent (`None`, or the falsy empty string) does resolution
fall back to `source_key_type`/`source_key_account` matching, where an
absent provider-account on both sides counts as a match
(`source_key_match`); resolution failure is the structured client error
HTTP 400, never an unhandled exception. -/
theorem c8_source_resolution
    (css : List ConfiguredSource) (ci : ContentItem) (sid : String) :
    (ci.source_id = some sid → sid ≠ "" →
      content_item_source_xml css ci =
        match css.find? (fun cs => sid == cs.id) with
        | some cs => Except.ok cs
        | none => Except.error (Err.http 400 "Invalid source"))
    ∧ (ci.source_id = none ∨ ci.source_id = some "" →
      content_item_source_xml css ci =
        match css.find? (source_key_match ci) with
        | some cs => Except.ok cs
        | none => Except.error (Err.http 400 "Invalid source"))
    ∧ (∀ e, content_item_source_xml css ci = Except.error e →
        e = Err.http 400 "Invalid source") := by
  refine ⟨?_, ?_, ?_⟩
  · intro h hne
    unfold content_item_source_xml
    rw [h]
    simp [truthy_opt, hne, pyEqOptStr]
  · intro h
    unfold content_item_source_xml
    rcases h with h | h <;> rw [h] <;> simp [truthy_opt]
  · intro e he
    unfold content_item_source_xml at he
    by_cases ht : truthy_opt ci.source_id
    · rw [if_pos ht] at he
      cases hf : css.find? (fun cs => pyEqOptStr ci.source_id cs.id) <;>
        rw [hf] at he <;> simp at he
      exact he.symm
    · rw [if_neg ht] at he
      cases hf : css.find? (source_key_match ci) <;> rw [hf] at he <;> simp at he
      exact he.symm

/-- Witness for C8 at the spec's §8 scenario: the item has
`source_id="7"`; its (TUNEIN, "") pair would match `fxTunein` (id "1"),
but resolution picks `fxSpotify` (id "7"). -/
theorem c8_source_resolution_witness :
    content_item_source_xml [fxTunein, fxSpotify] ciSpot = Except.ok fxSpotify
    ∧ source_key_match ciSpot fxTunein = true := by
  constructor
  · exact ((c8_source_resolution [fxTunein, fxSpotify] ciSpot "7").1
      rfl (by decide)).trans (by decide)
  · decide

/-- Claim C10: failing mutations never write to the store — whenever
`update_preset` or `add_recent` returns an error (structured client error
or unhandled exception alike), the returned store state equals the initial
one, because every raise point precedes the single `save_presets` /
`save_recents` call. -/
theorem c10_no_write_on_error
    (st : MargeState) (n : Int) (xml : InboundXml) (now : Int)
    (fromiso : String → Int) (st2 : MargeState) (dev : String)
    (xml2 : InboundXml) (now2 : Int) :
    (∀ e, (update_preset st n xml now).1 = Except.error e →
      (update_preset st n xml now).2 = st)
    ∧ (∀ e, (add_recent fromiso st2 dev xml2 now2).1 = Except.error e →
      (add_recent fromiso st2 dev xml2 now2).2 = st2) := by
  constructor
  · intro e h
    cases hf : preset_source_lookup st.sources (strip_element_text xml.sourceid) with
    | none => simp [update_preset, hf]
    | some ms =>
      simp only [update_preset, hf] at h ⊢
      split at h
      · rename_i e2 heq
        simp [heq]
      · simp at h
  · intro e h
    cases h1 : xml2.name with
    | none => simp [add_recent, h1]
    | some ne =>
      cases h2 : xml2.sourceid with
      | none => simp [add_recent, h1, h2]
      | some se =>
        cases h3 : xml2.location with
        | none => simp [add_recent, h1, h2, h3]
        | some le =>
          cases h4 : source_lookup st2.sources se.text with
          | none => simp [add_recent, h1, h2, h3, h4]
          | some src =>
            cases h5 : recent_lookup st2.recents src.source_key_type le.text
                src.source_key_account with
            | some mr =>
              simp only [add_recent, h1, h2, h3, h4, h5] at h
              simp at h
            | none =>
              cases h6 : max_int_ids st2.recents with
              | error e2 => simp [add_recent, h1, h2, h3, h4, h5, h6]
              | ok m =>
                cases h7 : ne.text with
                | none => simp [add_recent, h1, h2, h3, h4, h5, h6, h7]
                | some nm =>
                  cases h8 : le.text with
                  | none =>
                    rw [h8] at h5
                    simp [add_recent, h1, h2, h3, h4, h5, h6, h7, h8]
                  | some loc =>
                    rw [h8] at h5
                    simp only [add_recent, h1, h2, h3, h4, h5, h6, h7, h8] at h
                    simp at h

/-- Witness for C10 at concrete erroring inputs: an unresolvable source in
`update_preset` and the empty-recents `ValueError` in `add_recent` both
leave the store untouched. -/
theorem c10_no_write_on_error_witness :
    (update_preset stNoSources 1 xmlFull 50).2 = stNoSources
    ∧ (add_recent (fun _ => 0) stEmptyRecents "dev" xmlFull 1000).2 =
        stEmptyRecents := by
  exact ⟨(c10_no_write_on_error stNoSources 1 xmlFull 50
      (fun _ => 0) stEmptyRecents "dev" xmlFull 1000).1
      (Err.http 400 ("Invalid source " ++ strip_element_text xmlFull.sourceid))
      (by decide),
    (c10_no_write_on_error stNoSources 1 xmlFull 50
      (fun _ => 0) stEmptyRecents "dev" xmlFull 1000).2
      (Err.py PyError.valueError) (by decide)⟩
